import Mathlib

/-!
Verification of `src/thermostat/__main__.py` (Tomdango/smart-thermostat).

The program is a small UI renderer: a `State` record, an abstract
`WindowObject` with a coordinate-box helper, a `Window` root that renders an
ordered child list, a `Menu` leaf drawing three bars, and a `Renderer` that
pushes frames to a physical display.  We embed the pure coordinate arithmetic
directly, and the effectful rendering code as functions producing explicit
event traces; Python exceptions are modelled with `Except` / explicit raise
flags, since the source contains exactly one `try/except` block
(`Renderer.render`).

The display driver (`DisplayHATMini`) is external to the repository; it only
contributes the fixed constants `WIDTH`/`HEIGHT`, which we keep as parameters
so every statement holds for any display size.
-/

namespace Thermostat

/-- `State`: `_brightness` and `led_colour` are Python floats carrying exact
literal values (`1.0`, `0.2`, `0.0`); no arithmetic is ever performed on them,
so we model them as rationals. -/
structure State where
  _brightness : ℚ := 1
  _power_saving_mode_enabled : Bool := false
  led_colour : ℚ × ℚ × ℚ := (0, 0, 0)
deriving Repr, DecidableEq

/-- `State.brightness` property:
`return 0.2 if self._power_saving_mode_enabled else self._brightness`. -/
def State.brightness (s : State) : ℚ :=
  if s._power_saving_mode_enabled then 1/5 else s._brightness

/-- The four class constants of `WindowObject`:
`MIN_HEIGHT = 0`, `MAX_HEIGHT = DisplayHATMini.HEIGHT`,
`MIN_WIDTH = 0`, `MAX_WIDTH = DisplayHATMini.WIDTH`.
`WIDTH`/`HEIGHT` come from the external display driver, kept abstract. -/
structure Bounds where
  WIDTH : ℤ
  HEIGHT : ℤ
deriving Repr, DecidableEq

def Bounds.MIN_HEIGHT (_ : Bounds) : ℤ := 0
def Bounds.MAX_HEIGHT (b : Bounds) : ℤ := b.HEIGHT
def Bounds.MIN_WIDTH (_ : Bounds) : ℤ := 0
def Bounds.MAX_WIDTH (b : Bounds) : ℤ := b.WIDTH

/-- Result of `_calculate_coordinates`: the `OrderedDict` values in insertion
order `(min_x, min_y, max_x, max_y)` (the two `update` calls touch existing
keys, so insertion order is unchanged). -/
structure Coords where
  min_x : ℤ
  min_y : ℤ
  max_x : ℤ
  max_y : ℤ
deriving Repr, DecidableEq

/-- `WindowObject._calculate_coordinates(margin=0, height=-1, offset_y=-1)`:
starts from the full display box shrunk by `margin` on all sides; if
`height != -1` overrides `max_y` with `MIN_HEIGHT + margin + height`; if
`offset_y != -1` adds `offset_y` to both `min_y` and `max_y`. -/
def calculate_coordinates (b : Bounds)
    (margin : ℤ := 0) (height : ℤ := -1) (offset_y : ℤ := -1) : Coords :=
  let coords : Coords :=
    { min_x := b.MIN_WIDTH + margin
      min_y := b.MIN_HEIGHT + margin
      max_x := b.MAX_WIDTH - margin
      max_y := b.MAX_HEIGHT - margin }
  let coords :=
    if height ≠ -1 then
      { coords with max_y := b.MIN_HEIGHT + margin + height }
    else coords
  let coords :=
    if offset_y ≠ -1 then
      { coords with min_y := coords.min_y + offset_y,
                    max_y := coords.max_y + offset_y }
    else coords
  coords

end Thermostat

namespace Thermostat

/-- Closed form of `_calculate_coordinates`, obtained by running the two
conditional updates. -/
lemma calculate_coordinates_eq (b : Bounds) (margin height offset_y : ℤ) :
    calculate_coordinates b margin height offset_y =
      { min_x := margin
        min_y := margin + (if offset_y ≠ -1 then offset_y else 0)
        max_x := b.WIDTH - margin
        max_y := (if height ≠ -1 then margin + height else b.HEIGHT - margin)
                   + (if offset_y ≠ -1 then offset_y else 0) } := by
  unfold calculate_coordinates
  dsimp [Bounds.MIN_WIDTH, Bounds.MIN_HEIGHT, Bounds.MAX_WIDTH, Bounds.MAX_HEIGHT]
  split <;> split <;> simp_all

/-- C1: for every margin/height/offset input the box satisfies
`max_x - min_x = WIDTH - 2*margin`; when `height ≠ -1` also
`max_y - min_y = height`; when `offset_y ≠ -1` both `min_y` and `max_y`
are exactly `offset_y` more than in the call with no offset; and with no
arguments the box is the full display bounds. -/
theorem calculate_coordinates_spec (b : Bounds) (margin height offset_y : ℤ) :
    ((calculate_coordinates b margin height offset_y).max_x -
       (calculate_coordinates b margin height offset_y).min_x
       = b.WIDTH - 2 * margin)
    ∧ (height ≠ -1 →
        (calculate_coordinates b margin height offset_y).max_y -
          (calculate_coordinates b margin height offset_y).min_y = height)
    ∧ (offset_y ≠ -1 →
        (calculate_coordinates b margin height offset_y).min_y
            = (calculate_coordinates b margin height).min_y + offset_y
        ∧ (calculate_coordinates b margin height offset_y).max_y
            = (calculate_coordinates b margin height).max_y + offset_y)
    ∧ calculate_coordinates b = ⟨0, 0, b.WIDTH, b.HEIGHT⟩ := by
  refine ⟨?_, ?_, ?_, ?_⟩
  · rw [calculate_coordinates_eq]; ring
  · intro h
    rw [calculate_coordinates_eq]
    simp only [h, if_pos, ne_eq, not_false_iff, if_true]
    split <;> ring
  · intro h
    rw [calculate_coordinates_eq, calculate_coordinates_eq]
    simp [h]
  · rw [calculate_coordinates_eq]
    simp

/-- Witness for C1 at `b = (320, 240)`, `margin = 30`, `height = 20`,
`offset_y = 40`. -/
theorem calculate_coordinates_spec_witness :
    ((calculate_coordinates ⟨320, 240⟩ 30 20 40).max_x -
       (calculate_coordinates ⟨320, 240⟩ 30 20 40).min_x = 320 - 2 * 30)
    ∧ ((calculate_coordinates ⟨320, 240⟩ 30 20 40).max_y -
         (calculate_coordinates ⟨320, 240⟩ 30 20 40).min_y = 20)
    ∧ ((calculate_coordinates ⟨320, 240⟩ 30 20 40).min_y
         = (calculate_coordinates ⟨320, 240⟩ 30 20).min_y + 40
       ∧ (calculate_coordinates ⟨320, 240⟩ 30 20 40).max_y
         = (calculate_coordinates ⟨320, 240⟩ 30 20).max_y + 40)
    ∧ calculate_coordinates ⟨320, 240⟩ = ⟨0, 0, 320, 240⟩ := by
  have h := calculate_coordinates_spec ⟨320, 240⟩ 30 20 40
  exact ⟨h.1, h.2.1 (by decide), h.2.2.1 (by decide), h.2.2.2⟩

/-- C2 counterexample: with `margin = 10`, `height = 20` (no offset) the code
produces `max_y = MIN_HEIGHT + margin + height = 30`, while the claim's
formula `min_y + margin + height` gives `10 + 10 + 20 = 40`. -/
theorem calc_max_y_override_cex :
    ¬ ((calculate_coordinates ⟨320, 240⟩ 10 20).max_y
        = (calculate_coordinates ⟨320, 240⟩ 10 20).min_y + 10 + 20) := by
  decide

/-- C2 amended: for every margin and given height (`height ≠ -1`), the
override sets `max_y = MIN_HEIGHT + margin + height` before the optional
offset is applied; with no offset this equals `min_y + height` (the claim's
`min_y + margin + height` holds only when `margin = 0`). -/
theorem calc_max_y_override (b : Bounds) (margin height : ℤ) (h : height ≠ -1) :
    (calculate_coordinates b margin height).max_y
        = b.MIN_HEIGHT + margin + height
    ∧ (calculate_coordinates b margin height).max_y
        = (calculate_coordinates b margin height).min_y + height := by
  rw [calculate_coordinates_eq]
  simp [h, Bounds.MIN_HEIGHT]

/-- Witness for C2's amended theorem at `b = (320, 240)`, `margin = 10`,
`height = 20`. -/
theorem calc_max_y_override_witness :
    (calculate_coordinates ⟨320, 240⟩ 10 20).max_y
        = (⟨320, 240⟩ : Bounds).MIN_HEIGHT + 10 + 20
    ∧ (calculate_coordinates ⟨320, 240⟩ 10 20).max_y
        = (calculate_coordinates ⟨320, 240⟩ 10 20).min_y + 20 :=
  calc_max_y_override ⟨320, 240⟩ 10 20 (by decide)

/-- C3 counterexample: with power-saving disabled and `_brightness = 1/2`,
`State.brightness` returns the stored `_brightness` (`1/2`), not `1.0`. -/
theorem brightness_cex :
    ¬ (State.brightness { _brightness := 1/2 } = 1) := by
  norm_num [State.brightness]

/-- C3 amended: `State.brightness` returns the underlying `_brightness`
field (whose default is `1.0`) when power-saving is disabled, and `0.2`
regardless of `_brightness` when it is enabled. -/
theorem brightness_spec (s : State) :
    (s._power_saving_mode_enabled = false → s.brightness = s._brightness)
    ∧ (s._power_saving_mode_enabled = true → s.brightness = 1/5)
    ∧ (State.brightness {} = 1) := by
  refine ⟨fun h => ?_, fun h => ?_, rfl⟩ <;> simp [State.brightness, h]

/-- Witness for C3's amended theorem at a state with power-saving enabled
and `_brightness = 1/2`. -/
theorem brightness_spec_witness :
    State.brightness { _brightness := 1/2, _power_saving_mode_enabled := true }
      = 1/5 :=
  (brightness_spec _).2.1 rfl

/-! ### The window tree -/

/-- A child node registered on `Window`.  `id` identifies the node (its
registration), and `raises` records whether its `render()` raises a Python
exception when invoked. -/
structure Child where
  id : ℕ
  raises : Bool
deriving Repr, DecidableEq

/-- `Window.render`: `for child in self._children: child.render()`.
Returns the ids of the children whose `render()` was invoked, in order,
paired with `true` iff an exception escaped the loop.  The loop body has no
`try`/`except`, so the first raising child ends the pass. -/
def Window.render : List Child → List ℕ × Bool
  | [] => ([], false)
  | c :: rest =>
    if c.raises then ([c.id], true)
    else
      let r := Window.render rest
      (c.id :: r.1, r.2)

/-- `Window.add_child`: `self._children.append(child)`. -/
def Window.add_child (children : List Child) (c : Child) : List Child :=
  children ++ [c]

lemma window_render_ok (children : List Child)
    (h : ∀ c ∈ children, c.raises = false) :
    Window.render children = (children.map Child.id, false) := by
  induction children with
  | nil => rfl
  | cons c rest ih =>
      have hc : c.raises = false := h c (List.mem_cons_self c rest)
      have hr := ih fun d hd => h d (List.mem_cons_of_mem c hd)
      simp [Window.render, hc, hr]

lemma window_render_raise (pre : List Child) (c : Child) (post : List Child)
    (hpre : ∀ d ∈ pre, d.raises = false) (hc : c.raises = true) :
    Window.render (pre ++ c :: post) = ((pre ++ [c]).map Child.id, true) := by
  induction pre with
  | nil => simp [Window.render, hc]
  | cons d rest ih =>
      have hd : d.raises = false := hpre d (List.mem_cons_self d rest)
      have hr := ih fun e he => hpre e (List.mem_cons_of_mem d he)
      simp [Window.render, hd, hr]

/-- C4: one call to `Window.render` invokes each registered child's
`render()` exactly once, in registration order (the trace is exactly
`children.map id` when nothing raises); there is no error isolation: if the
first raising child sits after prefix `pre`, the trace is exactly
`pre ++ [c]` — no later child is invoked — and the exception escapes. -/
theorem window_render_each_child_once (children : List Child) :
    ((∀ c ∈ children, c.raises = false) →
        Window.render children = (children.map Child.id, false))
    ∧ (∀ pre c post, children = pre ++ c :: post →
        (∀ d ∈ pre, d.raises = false) → c.raises = true →
        Window.render children = ((pre ++ [c]).map Child.id, true)) := by
  refine ⟨window_render_ok children, ?_⟩
  rintro pre c post rfl hpre hc
  exact window_render_raise pre c post hpre hc

/-- Witness for C4: three children where the second raises — the first two
are invoked in order, the third is not. -/
theorem window_render_each_child_once_witness :
    Window.render [⟨0, false⟩, ⟨1, true⟩, ⟨2, false⟩] = ([0, 1], true) := by
  have h := (window_render_each_child_once
      [⟨0, false⟩, ⟨1, true⟩, ⟨2, false⟩]).2
      [⟨0, false⟩] ⟨1, true⟩ [⟨2, false⟩] rfl (by decide) rfl
  simpa using h

/-! ### `Renderer.render`: the single error boundary -/

/-- Observable outcome of one `Renderer.render()` tick:
the child `render()` calls made, whether `self.display.display()` was
reached, whether `"Failed to draw window"` was printed, and the Python
return value (`none` models `None`, `some false` models `False`). -/
structure RenderResult where
  invoked : List ℕ
  flushed : Bool
  printed_failure : Bool
  retval : Option Bool
deriving Repr, DecidableEq

/-- `Renderer.render`:
`try: self.window.render(); self.display.display()`
`except Exception: print("Failed to draw window"); return False`.
The function always returns normally (the `except Exception` boundary
swallows any exception from the paint pass); when `window.render()` raises,
the flush is never reached. -/
def Renderer.render (children : List Child) : RenderResult :=
  let r := Window.render children
  if r.2 then
    { invoked := r.1, flushed := false, printed_failure := true,
      retval := some false }
  else
    { invoked := r.1, flushed := true, printed_failure := false,
      retval := none }

/-- C5: whenever the window tree raises during the paint pass,
`Renderer.render` returns normally with `False` (it does not re-raise:
it is a total function into `RenderResult`), prints the failure message,
and never reaches the `display()` flush for that tick. -/
theorem renderer_render_catches (children : List Child)
    (h : (Window.render children).2 = true) :
    (Renderer.render children).retval = some false
    ∧ (Renderer.render children).printed_failure = true
    ∧ (Renderer.render children).flushed = false := by
  simp [Renderer.render, h]

/-- Witness for C5: a single raising child. -/
theorem renderer_render_catches_witness :
    (Renderer.render [⟨0, true⟩]).retval = some false
    ∧ (Renderer.render [⟨0, true⟩]).printed_failure = true
    ∧ (Renderer.render [⟨0, true⟩]).flushed = false :=
  renderer_render_catches [⟨0, true⟩] rfl

/-- Python truthiness of the value `Renderer.render` returns:
`None` is falsy, a `bool` is its own truth value. -/
def pyTruthy : Option Bool → Bool
  | none => false
  | some b => b

/-- C10: `Renderer.render` returns `None` when the paint pass succeeds and
`False` when it fails, so the result is falsy in both cases — truthiness of
the return value cannot distinguish success from failure. -/
theorem renderer_render_retval (children : List Child) :
    ((Window.render children).2 = false →
        (Renderer.render children).retval = none)
    ∧ ((Window.render children).2 = true →
        (Renderer.render children).retval = some false)
    ∧ pyTruthy (Renderer.render children).retval = false := by
  refine ⟨fun h => ?_, fun h => ?_, ?_⟩
  · simp [Renderer.render, h]
  · simp [Renderer.render, h]
  · by_cases h : (Window.render children).2 <;> simp [Renderer.render, h, pyTruthy]

/-- Witness for C10: an empty tree succeeds and returns `None`; a raising
child yields `False`; both are falsy. -/
theorem renderer_render_retval_witness :
    (Renderer.render []).retval = none
    ∧ (Renderer.render [⟨0, true⟩]).retval = some false
    ∧ pyTruthy (Renderer.render []).retval = false
    ∧ pyTruthy (Renderer.render [⟨0, true⟩]).retval = false :=
  ⟨(renderer_render_retval []).1 rfl,
   (renderer_render_retval [⟨0, true⟩]).2.1 rfl,
   (renderer_render_retval []).2.2,
   (renderer_render_retval [⟨0, true⟩]).2.2⟩

/-! ### Concrete drawing: `Menu.render` and `Window._render_background` -/

/-- One `self.draw.rectangle(coords, colour, width=...)` call: the box, the
fill colour, and the optional `width` keyword argument. -/
structure RectCall where
  coords : Coords
  colour : ℕ × ℕ × ℕ
  width : Option ℕ
deriving Repr, DecidableEq

/-- The fixed item list of `Menu.render`:
`["Living Room", "Hallway", "Bedroom"]`. -/
def Menu.items : List String := ["Living Room", "Hallway", "Bedroom"]

/-- `Menu.render`: for each `(index, item)` of `enumerate(items)`, index 1
draws a white bar at `_calculate_coordinates(margin=30, height=20)` (then
`continue`); every other index draws a grey bar at
`_calculate_coordinates(margin=30, height=20, offset_y=20 * index)`. -/
def Menu.render (b : Bounds) : List RectCall :=
  (List.range Menu.items.length).map fun index =>
    if index == 1 then
      { coords := calculate_coordinates b 30 20,
        colour := (255, 255, 255), width := none }
    else
      { coords := calculate_coordinates b 30 20 (20 * (index : ℤ)),
        colour := (175, 175, 175), width := none }

/-- C6: one `Menu.render` call draws exactly three bars: index 1 is the
highlighted colour `(255,255,255)` at the margin-30, height-20 box with no
vertical offset; indices 0 and 2 are the neutral colour `(175,175,175)` at
vertical offsets 0 and 40 respectively. -/
theorem menu_render_bars (b : Bounds) :
    (Menu.render b).length = 3
    ∧ (Menu.render b).get? 1 = some
        { coords := calculate_coordinates b 30 20,
          colour := (255, 255, 255), width := none }
    ∧ (Menu.render b).get? 0 = some
        { coords := calculate_coordinates b 30 20 0,
          colour := (175, 175, 175), width := none }
    ∧ (Menu.render b).get? 2 = some
        { coords := calculate_coordinates b 30 20 40,
          colour := (175, 175, 175), width := none } := by
  refine ⟨rfl, rfl, ?_, ?_⟩ <;>
    simp [Menu.render, Menu.items, List.range_succ]

/-- `Window._render_background` (called from `Window.init`): an outer
rectangle over the full display in `(180, 0, 0)` with `width=10`, then an
inner rectangle at `margin=10` filled `(50, 50, 50)`. -/
def Window.render_background (b : Bounds) : List RectCall :=
  [ { coords := calculate_coordinates b, colour := (180, 0, 0),
      width := some 10 },
    { coords := calculate_coordinates b 10, colour := (50, 50, 50),
      width := none } ]

/-! ### `Renderer.init`: the call trace against the display driver -/

/-- A call made against the external display driver or drawing surface. -/
inductive DisplayEvent where
  | set_backlight (value : ℚ)
  | set_led (colour : ℚ × ℚ × ℚ)
  | draw_rect (call : RectCall)
  | display
deriving Repr, DecidableEq

def DisplayEvent.isBacklight : DisplayEvent → Bool
  | .set_backlight _ => true
  | _ => false

def DisplayEvent.isLed : DisplayEvent → Bool
  | .set_led _ => true
  | _ => false

def DisplayEvent.isDisplay : DisplayEvent → Bool
  | .display => true
  | _ => false

/-- `Renderer.set_brightness`:
`self.display.set_backlight(self.state.brightness)` then
`self.display.set_led(*self.state.led_colour)`. -/
def Renderer.set_brightness (s : State) : List DisplayEvent :=
  [.set_backlight s.brightness, .set_led s.led_colour]

/-- `Window.init`: runs `self._render_background()`. -/
def Window.init (b : Bounds) : List DisplayEvent :=
  (Window.render_background b).map .draw_rect

/-- `Renderer.init`: `self.set_brightness()`, `self.window.init()`,
`self.display.display()` in that order. -/
def Renderer.init (s : State) (b : Bounds) : List DisplayEvent :=
  Renderer.set_brightness s ++ Window.init b ++ [.display]

/-- C7: for every `State`, the `Renderer.init` trace contains exactly one
`set_backlight` call, with argument `State.brightness`, and exactly one
`set_led` call, with argument `State.led_colour`; restricting the trace to
the events before the first `display()` flush leaves both calls intact, so
both happen before the first frame flush. -/
theorem renderer_init_calls (s : State) (b : Bounds) :
    ((Renderer.init s b).filter DisplayEvent.isBacklight
        = [DisplayEvent.set_backlight s.brightness])
    ∧ ((Renderer.init s b).filter DisplayEvent.isLed
        = [DisplayEvent.set_led s.led_colour])
    ∧ (((Renderer.init s b).takeWhile fun e => !e.isDisplay).filter
          DisplayEvent.isBacklight
        = [DisplayEvent.set_backlight s.brightness])
    ∧ (((Renderer.init s b).takeWhile fun e => !e.isDisplay).filter
          DisplayEvent.isLed
        = [DisplayEvent.set_led s.led_colour]) := by
  refine ⟨rfl, rfl, rfl, rfl⟩

/-! ### Exception propagation out of `Renderer.init` -/

/-- Fault model for the external calls made during `Renderer.init`: each
field is `some e` when that call raises the Python exception `e`, `none`
when it returns normally. -/
structure InitFaults where
  set_backlight_exc : Option String := none
  set_led_exc : Option String := none
  window_init_exc : Option String := none
  display_exc : Option String := none
deriving Repr, DecidableEq

/-- A call that raises `e` when its fault is `some e`. -/
def raiseOpt : Option String → Except String Unit
  | some e => .error e
  | none => .ok ()

/-- `Renderer.set_brightness` under the fault model: `set_backlight`, then
`set_led`; no `try`/`except` around either. -/
def Renderer.set_brightness_exc (f : InitFaults) : Except String Unit := do
  raiseOpt f.set_backlight_exc
  raiseOpt f.set_led_exc

/-- `Renderer.init` under the fault model: `self.set_brightness()`,
`self.window.init()`, `self.display.display()` sequenced with no
`try`/`except` anywhere in `init`, so an exception in any step propagates
to the caller. -/
def Renderer.init_exc (f : InitFaults) : Except String Unit := do
  Renderer.set_brightness_exc f
  raiseOpt f.window_init_exc
  raiseOpt f.display_exc

/-- C8: an exception raised by any of the four external calls made during
`Renderer.init` — `set_backlight`, `set_led`, the window tree's `init`
(background draw), or the initial `display()` flush — escapes `init`
uncaught, as the very exception raised. -/
theorem renderer_init_propagates (f : InitFaults) (e : String) :
    (f.set_backlight_exc = some e → Renderer.init_exc f = .error e)
    ∧ (f.set_backlight_exc = none → f.set_led_exc = some e →
        Renderer.init_exc f = .error e)
    ∧ (f.set_backlight_exc = none → f.set_led_exc = none →
        f.window_init_exc = some e → Renderer.init_exc f = .error e)
    ∧ (f.set_backlight_exc = none → f.set_led_exc = none →
        f.window_init_exc = none → f.display_exc = some e →
        Renderer.init_exc f = .error e) := by
  refine ⟨fun h1 => ?_, fun h1 h2 => ?_, fun h1 h2 h3 => ?_,
    fun h1 h2 h3 h4 => ?_⟩ <;>
  · simp_all only [Renderer.init_exc, Renderer.set_brightness_exc, raiseOpt]
    rfl

/-- Witness for C8 at each of the four fault sites. -/
theorem renderer_init_propagates_witness :
    Renderer.init_exc { set_backlight_exc := some "E1" } = .error "E1"
    ∧ Renderer.init_exc { set_led_exc := some "E2" } = .error "E2"
    ∧ Renderer.init_exc { window_init_exc := some "E3" } = .error "E3"
    ∧ Renderer.init_exc { display_exc := some "E4" } = .error "E4" :=
  ⟨(renderer_init_propagates { set_backlight_exc := some "E1" } "E1").1 rfl,
   (renderer_init_propagates { set_led_exc := some "E2" } "E2").2.1 rfl rfl,
   (renderer_init_propagates { window_init_exc := some "E3" } "E3").2.2.1
     rfl rfl rfl,
   (renderer_init_propagates { display_exc := some "E4" } "E4").2.2.2
     rfl rfl rfl rfl⟩

/-! ### The class-level `_children` list -/

/-- A `Window` instance.  In the source an instance stores only
`self.image` and `self.draw`; `_children` is declared at class level
(`_children: List[WindowObject] = []`) and no instance ever assigns it, so
every attribute access `self._children` resolves to the one class-level
list.  We model an instance by its drawing-surface id and thread the class
attribute explicitly. -/
structure WindowInst where
  imageId : ℕ
deriving Repr, DecidableEq

/-- `self._children.append(child)` called on any instance mutates the
class-level list (there is no per-instance list). -/
def Window.add_child_inst (cls_children : List Child) (_self : WindowInst)
    (c : Child) : List Child :=
  Window.add_child cls_children c

/-- `self.render()` on any instance iterates the class-level list. -/
def Window.render_inst (cls_children : List Child) (_self : WindowInst) :
    List ℕ × Bool :=
  Window.render cls_children

/-- `Renderer.__init__(state)`: creates a fresh image and display, a
`Window` bound to the image, and registers one `Menu` child via
`self.window.add_child(Menu(self.image))`.  Returns the updated class-level
`_children` list and the renderer's window instance. -/
def Renderer.construct (cls_children : List Child) (imageId : ℕ)
    (menu : Child) : List Child × WindowInst :=
  (Window.add_child_inst cls_children ⟨imageId⟩ menu, ⟨imageId⟩)

/-- C9: `Window._children` is shared class state.  Starting from the
program-start state (`[]`), constructing one renderer registers its menu;
constructing a second renderer afterwards leaves both menus on the shared
list, and `render()` on either renderer's window — indeed on any `Window`
instance whatsoever — invokes both menus, in registration order. -/
theorem window_children_shared (m1 m2 : Child)
    (h1 : m1.raises = false) (h2 : m2.raises = false) :
    (Renderer.construct [] 0 m1).1 = [m1]
    ∧ (Renderer.construct (Renderer.construct [] 0 m1).1 1 m2).1 = [m1, m2]
    ∧ (∀ w : WindowInst,
        Window.render_inst
            (Renderer.construct (Renderer.construct [] 0 m1).1 1 m2).1 w
          = ([m1.id, m2.id], false)) := by
  refine ⟨rfl, rfl, fun w => ?_⟩
  have h := window_render_ok [m1, m2] ?_
  · simpa [Window.render_inst, Renderer.construct, Window.add_child_inst,
      Window.add_child] using h
  · intro c hc
    simp only [List.mem_cons, List.not_mem_nil, or_false] at hc
    rcases hc with rfl | rfl
    · exact h1
    · exact h2

/-- Witness for C9 with two distinct non-raising menu children. -/
theorem window_children_shared_witness :
    (Renderer.construct [] 0 ⟨10, false⟩).1 = [⟨10, false⟩]
    ∧ (Renderer.construct (Renderer.construct [] 0 ⟨10, false⟩).1 1
          ⟨11, false⟩).1 = [⟨10, false⟩, ⟨11, false⟩]
    ∧ (∀ w : WindowInst,
        Window.render_inst
            (Renderer.construct (Renderer.construct [] 0 ⟨10, false⟩).1 1
              ⟨11, false⟩).1 w
          = ([10, 11], false)) :=
  window_children_shared ⟨10, false⟩ ⟨11, false⟩ rfl rfl

end Thermostat
